import Mathlib

/-!
Verification of the cozo relational-algebra builder
(src/src/algebra/parser.rs) and of keyword identifiers
(src/src/data/keyword.rs), shallowly embedded in Lean.
-/

namespace Cozo

/-- Grammar rules the builder inspects. The full pest grammar is an
external collaborator; only the rules mentioned by the code under src and
a representative sample of other rules are modelled. -/
inductive Rule where
  | ra_arg
  | ra_expr
  | ra_expr_all
  | expr
  | name
  deriving DecidableEq

/-- Debug rendering of a rule, as the derived Debug in Rust prints the
variant name. -/
def Rule.debugStr : Rule → String
  | .ra_arg => "ra_arg"
  | .ra_expr => "ra_expr"
  | .ra_expr_all => "ra_expr_all"
  | .expr => "expr"
  | .name => "name"

/-- A parse-tree fragment as handed to the builder by the parser: its
rule, its matched text and its ordered inner sub-fragments. -/
inductive Pair where
  | mk (rule : Rule) (str : String) (inner : List Pair)

/-- The rule of a fragment (Rust as_rule). -/
def Pair.rule : Pair → Rule
  | .mk r _ _ => r

/-- The matched text of a fragment (Rust as_str). -/
def Pair.str : Pair → String
  | .mk _ s _ => s

/-- The inner sub-fragments of a fragment (Rust into_inner). -/
def Pair.inner : Pair → List Pair
  | .mk _ _ i => i

/-- Modelled from the spec: table identities live in the schema layer,
which is out of scope per section 1; only their presence as error
payloads matters here. -/
structure TableId where
  in_root : Bool
  id : Int
  deriving DecidableEq

/-- Modelled from the spec: the binary tuple encoding is out of scope per
section 1; an opaque byte sequence stands in for an encoded tuple. -/
abbrev OwnTuple := List Nat

/-- Modelled from the spec: scalar values come from the external
expression layer; a minimal value universe serves as error payload. -/
inductive StaticValue where
  | null
  | int (i : Int)
  | text (s : String)

/-- The closed error enumeration of the algebra layer, one constructor
per variant of AlgebraParseError in src/src/algebra/parser.rs lines 12
to 55, payloads included. -/
inductive AlgebraParseError where
  | Unchainable (clause : String)
  | WrongArgumentType (clause : String) (pos : Nat) (found : String)
  | TableNotFound (tbl : String)
  | WrongTableKind (t : TableId)
  | TableIdNotFound (t : TableId)
  | NotEnoughArguments (clause : String)
  | ValueError (v : StaticValue)
  | Parse (msg : String)
  | KeyConflict (t : OwnTuple)
  | ValueNotFound (t : OwnTuple)
  | NoAssociation (a : String) (b : String)
  | DuplicateBinding (b : String)
  | AggregateFnNotAllowed
  | ScalarFnNotAllowed

/-- Result of running builder code: a value, an error value of the
taxonomy (Rust Err), or an unrecoverable abort (a Rust unwrap failure or
the unimplemented arm). -/
inductive Outcome (α : Type) where
  | ok (a : α)
  | err (e : AlgebraParseError)
  | fatal (msg : String)

/-- Sequencing of fallible builder steps; errors and aborts propagate. -/
def Outcome.bind {α β : Type} : Outcome α → (α → Outcome β) → Outcome β
  | .ok a, f => f a
  | .err e, _ => .err e
  | .fatal m, _ => .fatal m

/-- The twenty-variant plan-node union RaBox from
src/src/algebra/parser.rs lines 71 to 93. The relation-typed fields of
each boxed operator struct are made explicit; the remaining constructor
data of each operator is kept as its raw parse fragments, since the
operator structs themselves are not under src. -/
inductive RaBox where
  | Insertion (source : RaBox) (upsert : Bool) (args : List Pair)
  | TaggedInsertion (upsert : Bool) (args : List Pair)
  | FromValues (args : List Pair)
  | TableScan (args : List Pair)
  | WhereFilter (source : RaBox) (args : List Pair)
  | SelectOp (source : RaBox) (args : List Pair)
  | AssocOp (source : RaBox) (args : List Pair)
  | LimitOp (source : RaBox) (kind : String) (args : List Pair)
  | Cartesian (left : RaBox) (right : RaBox)
  | NestedLoopLeft (left : RaBox) (right : RaBox)
  | SortOp (source : RaBox) (args : List Pair)
  | MergeJoin (left : RaBox) (right : RaBox) (kind : String)
  | ConcatOp (sources : List RaBox)
  | UnionOp (sources : List RaBox)
  | IntersectOp (sources : List RaBox)
  | SymDiffOp (sources : List RaBox)
  | DiffOp (sources : List RaBox)
  | GroupOp (source : RaBox) (args : List Pair)
  | DeleteOp (source : RaBox) (args : List Pair)
  | UpdateOp (source : RaBox) (args : List Pair)
  | WalkOp (args : List Pair)

/-- Child listing, following RaBox::sources in src/src/algebra/parser.rs
lines 96 to 120 arm by arm. The Rust SymDiffOp arm indexes sources at 0
and at 1 and so aborts when fewer than two are present; that corner is
represented by the empty list and is never produced by the builder. -/
def RaBox.sources : RaBox → List RaBox
  | .Insertion s _ _ => [s]
  | .TaggedInsertion _ _ => []
  | .FromValues _ => []
  | .WalkOp _ => []
  | .TableScan _ => []
  | .WhereFilter s _ => [s]
  | .SelectOp s _ => [s]
  | .AssocOp s _ => [s]
  | .LimitOp s _ _ => [s]
  | .Cartesian l r => [l, r]
  | .NestedLoopLeft l _ => [l]
  | .SortOp s _ => [s]
  | .MergeJoin l r _ => [l, r]
  | .ConcatOp ss => ss
  | .UnionOp ss => ss
  | .DiffOp ss => ss
  | .IntersectOp ss => ss
  | .SymDiffOp (a :: b :: _) => [a, b]
  | .SymDiffOp _ => []
  | .GroupOp s _ => [s]
  | .DeleteOp s _ => [s]
  | .UpdateOp s _ => [s]

/-- Modelled from the spec: RelationalAlgebra::name delegates to the
operator structs, which are not under src; each variant reports its
clause name per sections 4.2 to 4.4. Only distinctness of the names
matters for the rendering claim. -/
def RaBox.opName : RaBox → String
  | .Insertion _ _ _ => "Insertion"
  | .TaggedInsertion _ _ => "TaggedInsertion"
  | .FromValues _ => "Values"
  | .TableScan _ => "TableScan"
  | .WhereFilter _ _ => "Where"
  | .SelectOp _ _ => "Select"
  | .AssocOp _ _ => "Assoc"
  | .LimitOp _ _ _ => "Limit"
  | .Cartesian _ _ => "Cartesian"
  | .NestedLoopLeft _ _ => "NestedLoopLeft"
  | .SortOp _ _ => "Sort"
  | .MergeJoin _ _ _ => "MergeJoin"
  | .ConcatOp _ => "Concat"
  | .UnionOp _ => "Union"
  | .IntersectOp _ => "Intersect"
  | .SymDiffOp _ => "SymDiff"
  | .DiffOp _ => "Diff"
  | .GroupOp _ _ => "Group"
  | .DeleteOp _ _ => "Delete"
  | .UpdateOp _ _ => "Update"
  | .WalkOp _ => "Walk"

/-- The recursive Debug rendering of a plan tree from
src/src/algebra/parser.rs lines 123 to 131: the node name followed by the
rendering of each child reported by sources, parenthesised. Recursion is
bounded by fuel because sources is not structurally decreasing. -/
def renderTree : Nat → RaBox → String
  | 0 => fun _ => "#"
  | fuel + 1 => fun r =>
      "(" ++ r.opName ++
        String.join ((r.sources).map (fun s => " " ++ renderTree fuel s)) ++ ")"

/-- Modelled from the spec: the build context (an open transaction plus
the schema catalog, section 4.1) is consumed opaquely by the constructor
models below. -/
structure TempDbContext where
  dummy : Unit := ()

/-- Embeds assert_rule from src/src/algebra/parser.rs lines 57 to 68:
succeed exactly when the fragment rule equals the expected rule,
otherwise report WrongArgumentType with the clause name, the argument
position and the shape actually found. -/
def assert_rule (pair : Pair) (rule : Rule) (clause : String) (u : Nat) :
    Except AlgebraParseError Unit :=
  if pair.rule = rule then .ok ()
  else .error (.WrongArgumentType clause u pair.rule.debugStr)

/-- Modelled from the spec: Insertion::build is not under src. Per
section 4.2 an insertion consumes the rows of its source and re-emits
them, and per RaBox::sources its single child is that source, so the
previously built node becomes the source; the upsert flag distinguishes
Insert from Upsert. A chain-initial insertion has no source to consume
and is modelled as a NotEnoughArguments error. -/
def Insertion.build (_ctx : TempDbContext) (prev : Option RaBox)
    (args : List Pair) (upsert : Bool) : Outcome RaBox :=
  match prev with
  | some s => .ok (.Insertion s upsert args)
  | none => .err (.NotEnoughArguments (if upsert then "Upsert" else "Insert"))

/-- Modelled from the spec: TaggedInsertion::build is not under src. Per
section 4.2 the tagged forms read a self-describing literal data block,
and per RaBox::sources they have no child, so the previously built node
is ignored; the upsert flag distinguishes the two tagged tags. -/
def TaggedInsertion.build (_ctx : TempDbContext) (_prev : Option RaBox)
    (args : List Pair) (upsert : Bool) : Outcome RaBox :=
  .ok (.TaggedInsertion upsert args)

/-- Modelled from the spec: RelationFromValues::build is not under src.
Per sections 4.1 and 4.2 a values literal is a stream origin that ignores
any previously built node. -/
def RelationFromValues.build (_ctx : TempDbContext) (_prev : Option RaBox)
    (args : List Pair) : Outcome RaBox :=
  .ok (.FromValues args)

/-- Modelled from the spec: build_from_clause is not under src. Per
sections 4.1 and 4.2 a From clause is a stream origin that binds the
listed tables and ignores any previously built node; the graph-pattern
and implicit cross-product lowerings are outside the claims, so a single
scan node stands for the lowered result. -/
def build_from_clause (_ctx : TempDbContext) (_prev : Option RaBox)
    (args : List Pair) : Outcome RaBox :=
  .ok (.TableScan args)

/-- Modelled from the spec: WhereFilter::build is not under src. Per
section 4.3 it wraps exactly one source; a chain-initial Where has no
predecessor to wrap and is modelled as Unchainable per section 4.1. -/
def WhereFilter.build (_ctx : TempDbContext) (prev : Option RaBox)
    (args : List Pair) : Outcome RaBox :=
  match prev with
  | some s => .ok (.WhereFilter s args)
  | none => .err (.Unchainable ("Where"))

/-- Modelled from the spec: SelectOp::build is not under src; it wraps
exactly one source per section 4.3. -/
def SelectOp.build (_ctx : TempDbContext) (prev : Option RaBox)
    (args : List Pair) : Outcome RaBox :=
  match prev with
  | some s => .ok (.SelectOp s args)
  | none => .err (.Unchainable ("Select"))

/-- Modelled from the spec: LimitOp::build is not under src; it wraps
exactly one source per section 4.3 and keeps the tag (Take or Skip) it
was dispatched with. -/
def LimitOp.build (_ctx : TempDbContext) (prev : Option RaBox)
    (args : List Pair) (kind : String) : Outcome RaBox :=
  match prev with
  | some s => .ok (.LimitOp s kind args)
  | none => .err (.Unchainable kind)

/-- Modelled from the spec: SortOp::build is not under src; it wraps
exactly one source per section 4.3. -/
def SortOp.build (_ctx : TempDbContext) (prev : Option RaBox)
    (args : List Pair) : Outcome RaBox :=
  match prev with
  | some s => .ok (.SortOp s args)
  | none => .err (.Unchainable ("Sort"))

/-- Modelled from the spec: GroupOp::build is not under src; it wraps
exactly one source per section 4.3. -/
def GroupOp.build (_ctx : TempDbContext) (prev : Option RaBox)
    (args : List Pair) : Outcome RaBox :=
  match prev with
  | some s => .ok (.GroupOp s args)
  | none => .err (.Unchainable ("Group"))

/-- Modelled from the spec: DeleteOp::build is not under src; it wraps
exactly one source per section 4.3. -/
def DeleteOp.build (_ctx : TempDbContext) (prev : Option RaBox)
    (args : List Pair) : Outcome RaBox :=
  match prev with
  | some s => .ok (.DeleteOp s args)
  | none => .err (.Unchainable ("Delete"))

/-- Modelled from the spec: UpdateOp::build is not under src; it wraps
exactly one source per section 4.3. -/
def UpdateOp.build (_ctx : TempDbContext) (prev : Option RaBox)
    (args : List Pair) : Outcome RaBox :=
  match prev with
  | some s => .ok (.UpdateOp s args)
  | none => .err (.Unchainable ("Update"))

/-- Modelled from the spec: WalkOp::build is not under src. Per sections
4.1 and 4.2 a Walk clause is a stream origin that ignores any previously
built node. -/
def WalkOp.build (_ctx : TempDbContext) (_prev : Option RaBox)
    (args : List Pair) : Outcome RaBox :=
  .ok (.WalkOp args)

/-- Builds each explicit sub-relation argument of a multi-source clause
with the given recursive builder; modelled from the spec, section 4.4:
such clauses take already-built sibling trees as explicit arguments. -/
def buildArgList (recur : Pair → Outcome RaBox) : List Pair → Outcome (List RaBox)
  | [] => .ok []
  | p :: rest =>
      (recur p).bind fun r =>
        (buildArgList recur rest).bind fun rs => .ok (r :: rs)

/-- Modelled from the spec: MergeJoin::build is not under src. Per
section 4.4 the four join tags share this constructor parameterized by
the tag; the left input is the previously built node when present, and
the remaining inputs come from the explicit sub-relation arguments. -/
def MergeJoin.build (recur : Pair → Outcome RaBox) (_ctx : TempDbContext)
    (prev : Option RaBox) (args : List Pair) (kind : String) : Outcome RaBox :=
  match prev, args with
  | some l, a :: _ => (recur a).bind fun r => .ok (.MergeJoin l r kind)
  | none, a :: b :: _ =>
      (recur a).bind fun l => (recur b).bind fun r => .ok (.MergeJoin l r kind)
  | _, _ => .err (.NotEnoughArguments kind)

/-- Modelled from the spec: the set-operation builders are not under src.
Per section 4.4 they collect two or more sources: the previously built
node when present, followed by the explicit sub-relation arguments. -/
def setOpSources (recur : Pair → Outcome RaBox) (prev : Option RaBox)
    (args : List Pair) (kind : String) : Outcome (List RaBox) :=
  (buildArgList recur args).bind fun xs =>
    match prev with
    | some p =>
        if (p :: xs).length < 2 then .err (.NotEnoughArguments kind)
        else .ok (p :: xs)
    | none =>
        if xs.length < 2 then .err (.NotEnoughArguments kind)
        else .ok xs

/-- Modelled from the spec: ConcatOp::build is not under src; see
setOpSources. -/
def ConcatOp.build (recur : Pair → Outcome RaBox) (_ctx : TempDbContext)
    (prev : Option RaBox) (args : List Pair) : Outcome RaBox :=
  (setOpSources recur prev args ("Concat")).bind fun srcs => .ok (.ConcatOp srcs)

/-- Modelled from the spec: UnionOp::build is not under src; see
setOpSources. -/
def UnionOp.build (recur : Pair → Outcome RaBox) (_ctx : TempDbContext)
    (prev : Option RaBox) (args : List Pair) : Outcome RaBox :=
  (setOpSources recur prev args ("Union")).bind fun srcs => .ok (.UnionOp srcs)

/-- Modelled from the spec: IntersectOp::build is not under src; see
setOpSources. -/
def IntersectOp.build (recur : Pair → Outcome RaBox) (_ctx : TempDbContext)
    (prev : Option RaBox) (args : List Pair) : Outcome RaBox :=
  (setOpSources recur prev args ("Intersect")).bind fun srcs => .ok (.IntersectOp srcs)

/-- Modelled from the spec: DiffOp::build is not under src; see
setOpSources. -/
def DiffOp.build (recur : Pair → Outcome RaBox) (_ctx : TempDbContext)
    (prev : Option RaBox) (args : List Pair) : Outcome RaBox :=
  (setOpSources recur prev args ("Diff")).bind fun srcs => .ok (.DiffOp srcs)

/-- Modelled from the spec: SymDiffOp::build is not under src; see
setOpSources. Section 4.4 fixes symmetric difference to exactly two
sources. -/
def SymDiffOp.build (recur : Pair → Outcome RaBox) (_ctx : TempDbContext)
    (prev : Option RaBox) (args : List Pair) : Outcome RaBox :=
  (setOpSources recur prev args ("SymDiff")).bind fun srcs => .ok (.SymDiffOp srcs)

/-- One iteration of the builder loop of build_relational_expr
(src/src/algebra/parser.rs lines 274 to 363): take the first inner pair
of the clause fragment as its tag (a Rust unwrap, aborting when absent)
and dispatch on the tag text to the matching constructor, passing the
node built so far and the remaining argument fragments. The recur
argument builds nested relational expressions for multi-source clauses.
The tag strings NAME_INSERTION and so on are constants of the operator
module, which is not under src; the strings here follow the clause names
exercised by the test suite and the spec. -/
def buildStep (recur : Pair → Outcome RaBox) (ctx : TempDbContext)
    (built : Option RaBox) (fragment : Pair) : Outcome RaBox :=
  match fragment.inner with
  | [] => .fatal ("unwrap")
  | tagPair :: args =>
    match tagPair.str with
    | "Insert" => Insertion.build ctx built args false
    | "Upsert" => Insertion.build ctx built args true
    | "InsertTagged" => TaggedInsertion.build ctx built args false
    | "UpsertTagged" => TaggedInsertion.build ctx built args true
    | "Values" => RelationFromValues.build ctx built args
    | "From" => build_from_clause ctx built args
    | "Where" => WhereFilter.build ctx built args
    | "Select" => SelectOp.build ctx built args
    | "Take" => LimitOp.build ctx built args ("Take")
    | "Skip" => LimitOp.build ctx built args ("Skip")
    | "Sort" => SortOp.build ctx built args
    | "InnerJoin" => MergeJoin.build recur ctx built args ("InnerJoin")
    | "LeftJoin" => MergeJoin.build recur ctx built args ("LeftJoin")
    | "RightJoin" => MergeJoin.build recur ctx built args ("RightJoin")
    | "OuterJoin" => MergeJoin.build recur ctx built args ("OuterJoin")
    | "Concat" => ConcatOp.build recur ctx built args
    | "Union" => UnionOp.build recur ctx built args
    | "Intersect" => IntersectOp.build recur ctx built args
    | "Diff" => DiffOp.build recur ctx built args
    | "SymDiff" => SymDiffOp.build recur ctx built args
    | "Group" => GroupOp.build ctx built args
    | "Delete" => DeleteOp.build ctx built args
    | "Update" => UpdateOp.build ctx built args
    | "Walk" => WalkOp.build ctx built args
    | other => .fatal ("not implemented: " ++ other)

/-- The clause tag strings the builder dispatches on; every other tag
falls through to the unimplemented arm of buildStep. -/
def recognizedNames : List String :=
  ["Insert", "Upsert", "InsertTagged", "UpsertTagged", "Values", "From",
   "Where", "Select", "Take", "Skip", "Sort", "InnerJoin", "LeftJoin",
   "RightJoin", "OuterJoin", "Concat", "Union", "Intersect", "Diff",
   "SymDiff", "Group", "Delete", "Update", "Walk"]

/-- The builder loop folding the clause fragments left to right while
threading the optional node built so far, following the for loop of
build_relational_expr. -/
def foldClauses (step : Option RaBox → Pair → Outcome RaBox) :
    Option RaBox → List Pair → Outcome (Option RaBox)
  | built, [] => .ok built
  | built, fragment :: rest =>
    match step built fragment with
    | .ok r => foldClauses step (some r) rest
    | .err e => .err e
    | .fatal m => .fatal m

/-- Final step of build_relational_expr (line 365): unwrapping the node
under construction aborts when no clause was processed and otherwise
yields the node built for the last fragment. -/
def unwrapBuilt : Outcome (Option RaBox) → Outcome RaBox
  | .ok (some r) => .ok r
  | .ok none => .fatal ("unwrap")
  | .err e => .err e
  | .fatal m => .fatal m

/-- Embeds build_relational_expr from src/src/algebra/parser.rs lines 265
to 366: unwrap a ra_arg wrapper into its first inner fragment (a Rust
unwrap, aborting when absent), check the ra_expr shape via assert_rule
with the fragment text as clause name at position 0, fold the clause
fragments with buildStep, and unwrap the resulting node. Building a
nested sub-relation spends one unit of fuel, so every concrete build
succeeds once fuel exceeds the nesting depth; fuel zero aborts. -/
def build_relational_expr : Nat → TempDbContext → Pair → Outcome RaBox
  | 0, _, _ => .fatal ("fuel")
  | fuel + 1, ctx, pair0 =>
    match (if pair0.rule = .ra_arg then pair0.inner.head? else some pair0) with
    | none => .fatal ("unwrap")
    | some pair =>
      match assert_rule pair .ra_expr pair.str 0 with
      | .error e => .err e
      | .ok _ =>
          unwrapBuilt
            (foldClauses (buildStep (build_relational_expr fuel ctx) ctx) none pair.inner)

/-- Constructor identities of the dispatch table, with each shared
constructor carrying its distinguishing parameter: Insert and Upsert
share the insertion constructor through the upsert flag, likewise the
two tagged tags, the two limit tags and the four join tags. Written from
the dispatch description of the spec for comparison with buildStep. -/
inductive CtorId where
  | insertion (upsert : Bool)
  | taggedInsertion (upsert : Bool)
  | fromValues
  | fromClause
  | whereFilter
  | selectOp
  | limitOp (kind : String)
  | sortOp
  | mergeJoin (kind : String)
  | concatOp
  | unionOp
  | intersectOp
  | diffOp
  | symDiffOp
  | groupOp
  | deleteOp
  | updateOp
  | walkOp
  deriving DecidableEq

/-- The dispatch table as a function of the clause tag string alone. -/
def ctorId : String → Option CtorId
  | "Insert" => some (.insertion false)
  | "Upsert" => some (.insertion true)
  | "InsertTagged" => some (.taggedInsertion false)
  | "UpsertTagged" => some (.taggedInsertion true)
  | "Values" => some .fromValues
  | "From" => some .fromClause
  | "Where" => some .whereFilter
  | "Select" => some .selectOp
  | "Take" => some (.limitOp ("Take"))
  | "Skip" => some (.limitOp ("Skip"))
  | "Sort" => some .sortOp
  | "InnerJoin" => some (.mergeJoin ("InnerJoin"))
  | "LeftJoin" => some (.mergeJoin ("LeftJoin"))
  | "RightJoin" => some (.mergeJoin ("RightJoin"))
  | "OuterJoin" => some (.mergeJoin ("OuterJoin"))
  | "Concat" => some .concatOp
  | "Union" => some .unionOp
  | "Intersect" => some .intersectOp
  | "Diff" => some .diffOp
  | "SymDiff" => some .symDiffOp
  | "Group" => some .groupOp
  | "Delete" => some .deleteOp
  | "Update" => some .updateOp
  | "Walk" => some .walkOp
  | _ => none

/-- Applies a constructor identity to the context, the node built so far
and the remaining argument fragments of the clause. -/
def applyCtor (recur : Pair → Outcome RaBox) (ctx : TempDbContext) :
    CtorId → Option RaBox → List Pair → Outcome RaBox
  | .insertion u, built, args => Insertion.build ctx built args u
  | .taggedInsertion u, built, args => TaggedInsertion.build ctx built args u
  | .fromValues, built, args => RelationFromValues.build ctx built args
  | .fromClause, built, args => build_from_clause ctx built args
  | .whereFilter, built, args => WhereFilter.build ctx built args
  | .selectOp, built, args => SelectOp.build ctx built args
  | .limitOp k, built, args => LimitOp.build ctx built args k
  | .sortOp, built, args => SortOp.build ctx built args
  | .mergeJoin k, built, args => MergeJoin.build recur ctx built args k
  | .concatOp, built, args => ConcatOp.build recur ctx built args
  | .unionOp, built, args => UnionOp.build recur ctx built args
  | .intersectOp, built, args => IntersectOp.build recur ctx built args
  | .diffOp, built, args => DiffOp.build recur ctx built args
  | .symDiffOp, built, args => SymDiffOp.build recur ctx built args
  | .groupOp, built, args => GroupOp.build ctx built args
  | .deleteOp, built, args => DeleteOp.build ctx built args
  | .updateOp, built, args => UpdateOp.build ctx built args
  | .walkOp, built, args => WalkOp.build ctx built args

/-- The failure kinds named by the closed error taxonomy of spec
sections 4.1, 4.3 and 7, one constructor per named kind, written from
the words of the spec for comparison with the code enumeration. -/
inductive SpecFailureKind where
  | wrongArgumentShape
  | notEnoughArguments
  | tableOrTableIdNotFound
  | wrongTableKind
  | duplicateBinding
  | unchainableClause
  | noAssociation
  | aggregateFnMisplaced
  | scalarFnMisplaced
  | keyConflictOnInsert
  | valueNotFoundVanishedRow
  | valueErrorMalformedLiteral
  deriving DecidableEq, Fintype

/-- The variant tags of the AlgebraParseError enumeration, one per
variant declared in src/src/algebra/parser.rs lines 12 to 55. -/
inductive ErrorVariant where
  | Unchainable
  | WrongArgumentType
  | TableNotFound
  | WrongTableKind
  | TableIdNotFound
  | NotEnoughArguments
  | ValueError
  | Parse
  | KeyConflict
  | ValueNotFound
  | NoAssociation
  | DuplicateBinding
  | AggregateFnNotAllowed
  | ScalarFnNotAllowed
  deriving DecidableEq, Fintype

/-- The variant tag of a concrete error value. -/
def AlgebraParseError.variant : AlgebraParseError → ErrorVariant
  | .Unchainable _ => .Unchainable
  | .WrongArgumentType _ _ _ => .WrongArgumentType
  | .TableNotFound _ => .TableNotFound
  | .WrongTableKind _ => .WrongTableKind
  | .TableIdNotFound _ => .TableIdNotFound
  | .NotEnoughArguments _ => .NotEnoughArguments
  | .ValueError _ => .ValueError
  | .Parse _ => .Parse
  | .KeyConflict _ => .KeyConflict
  | .ValueNotFound _ => .ValueNotFound
  | .NoAssociation _ _ => .NoAssociation
  | .DuplicateBinding _ => .DuplicateBinding
  | .AggregateFnNotAllowed => .AggregateFnNotAllowed
  | .ScalarFnNotAllowed => .ScalarFnNotAllowed

/-- Which enumeration variant realises which spec-named failure kind,
matching the wording of the spec taxonomy against the error messages of
the variants. -/
def realises : SpecFailureKind → ErrorVariant → Bool
  | .wrongArgumentShape, .WrongArgumentType => true
  | .notEnoughArguments, .NotEnoughArguments => true
  | .tableOrTableIdNotFound, .TableNotFound => true
  | .tableOrTableIdNotFound, .TableIdNotFound => true
  | .wrongTableKind, .WrongTableKind => true
  | .duplicateBinding, .DuplicateBinding => true
  | .unchainableClause, .Unchainable => true
  | .noAssociation, .NoAssociation => true
  | .aggregateFnMisplaced, .AggregateFnNotAllowed => true
  | .scalarFnMisplaced, .ScalarFnNotAllowed => true
  | .keyConflictOnInsert, .KeyConflict => true
  | .valueNotFoundVanishedRow, .ValueNotFound => true
  | .valueErrorMalformedLiteral, .ValueError => true
  | _, _ => false

/-- The identifier type Keyword from src/src/data/keyword.rs line 22: a
wrapper around its underlying text. -/
structure Keyword where
  text : String
  deriving DecidableEq

/-- Embeds Keyword::is_reserved (keyword.rs lines 51 to 53): the text
starts with the underscore character; the char form of starts_with in
Rust tests the first character. -/
def Keyword.is_reserved (k : Keyword) : Bool :=
  match k.text.data with
  | [] => false
  | c :: _ => c = '_'

/-- Embeds the From conversion for str (keyword.rs lines 36 to 41):
strip one leading colon when present, keep the text unchanged
otherwise. -/
def Keyword.ofStr (value : String) : Keyword :=
  match value.data with
  | ':' :: rest => ⟨String.mk rest⟩
  | _ => ⟨value⟩

/-- Embeds the Display instance (keyword.rs lines 24 to 28): one colon
followed by the stored text. -/
def Keyword.display (k : Keyword) : String :=
  ":" ++ k.text

/-- Keyword comparison as derived in Rust: the single-field wrapper
compares by its text field. -/
def Keyword.lt (a b : Keyword) : Prop := a.text < b.text

/-- Keyword non-strict comparison as derived in Rust. -/
def Keyword.le (a b : Keyword) : Prop := a.text ≤ b.text

/-- An empty build context for concrete runs. -/
def ctx0 : TempDbContext := {}

/-- A tag-name fragment, the first inner pair of a clause fragment. -/
def tagOf (s : String) : Pair := Pair.mk .name s []

/-- A concrete Values clause fragment. -/
def valuesFrag : Pair := Pair.mk .expr "Values" [tagOf ("Values")]

/-- A concrete Insert clause fragment. -/
def insertFrag : Pair := Pair.mk .expr "Insert" [tagOf ("Insert")]

/-- A concrete clause fragment with an unrecognized tag. -/
def bogusFrag : Pair := Pair.mk .expr "Bogus" [tagOf ("Bogus")]

/-- The node built for valuesFrag. -/
def fvNode : RaBox := .FromValues []

/-- A parsed chain holding a Values clause then an Insert clause. -/
def chainPair : Pair := Pair.mk .ra_expr "chain" [valuesFrag, insertFrag]

/-- A parsed chain holding only a Values clause. -/
def valuesChainPair : Pair := Pair.mk .ra_expr "values" [valuesFrag]

/-- A parsed chain with zero clause fragments. -/
def emptyChainPair : Pair := Pair.mk .ra_expr "empty" []

/-- Splitting the builder fold at a list append: the fold of the second
part starts from the state the first part ends in, and errors or aborts
of the first part propagate. -/
theorem foldClauses_append (step : Option RaBox → Pair → Outcome RaBox)
    (xs ys : List Pair) :
    ∀ built, foldClauses step built (xs ++ ys) =
      (match foldClauses step built xs with
       | .ok mid => foldClauses step mid ys
       | .err e => .err e
       | .fatal m => .fatal m) := by
  induction xs with
  | nil => intro built; rfl
  | cons x xs ih =>
    intro built
    show foldClauses step built (x :: (xs ++ ys)) = _
    simp only [foldClauses]
    cases step built x with
    | ok r => exact ih (some r)
    | err e => rfl
    | fatal m => rfl

/-- A step on a fragment whose tag is not a recognized clause name hits
the unimplemented arm of the dispatch and aborts. -/
theorem buildStep_unrecognized (recur : Pair → Outcome RaBox)
    (ctx : TempDbContext) (built : Option RaBox) (f tagP : Pair)
    (args : List Pair) (hin : f.inner = tagP :: args)
    (hn : tagP.str ∉ recognizedNames) :
    buildStep recur ctx built f = .fatal ("not implemented: " ++ tagP.str) := by
  simp only [buildStep, hin]
  split
  all_goals first
    | rfl
    | (exfalso; apply hn; simp_all [recognizedNames])

/-- C7: an identifier is reserved exactly when its underlying text
begins with the underscore character. -/
theorem c7_is_reserved_iff (k : Keyword) :
    k.is_reserved = true ↔ ∃ rest, k.text.data = '_' :: rest := by
  rcases k with ⟨t⟩
  rcases h : t.data with _ | ⟨c, l⟩ <;>
    simp [Keyword.is_reserved, h]

/-- C8 counterexample: conversion strips exactly one sigil, so
converting the colon-prefixed form of a string that itself starts with a
colon differs from converting the string. -/
theorem c8_counterexample :
    Keyword.ofStr ("::a") = ⟨(":a")⟩ ∧ Keyword.ofStr (":a") = ⟨("a")⟩ ∧
    Keyword.ofStr ((":") ++ (":a")) ≠ Keyword.ofStr (":a") := by
  refine ⟨rfl, rfl, ?_⟩
  decide

/-- C8 amended: for a string without a leading colon, prepending one
colon before conversion changes nothing, conversion stores the string
unchanged, display prepends exactly one colon, and convert-then-display
round-trips the sigil-prefixed name. -/
theorem c8_amended (s : String) (h : s.data.head? ≠ some ':') :
    Keyword.ofStr ((":") ++ s) = Keyword.ofStr s ∧
    Keyword.ofStr s = ⟨s⟩ ∧
    (Keyword.ofStr s).display = (":") ++ s ∧
    (Keyword.ofStr ((":") ++ s)).display = (":") ++ s := by
  rcases s with ⟨d⟩
  have hof : Keyword.ofStr ⟨d⟩ = ⟨⟨d⟩⟩ := by
    unfold Keyword.ofStr
    rcases d with _ | ⟨c, l⟩
    · rfl
    · have hc : ¬ c = ':' := by
        intro hcc
        subst hcc
        exact h rfl
      split
      · rename_i rest heq
        injection heq with h1 h2
        exact absurd h1 hc
      · rfl
  have hcolon : Keyword.ofStr ((":") ++ (⟨d⟩ : String)) = ⟨⟨d⟩⟩ := by
    show Keyword.ofStr ⟨':' :: d⟩ = ⟨⟨d⟩⟩
    rfl
  refine ⟨by rw [hcolon, hof], hof, ?_, ?_⟩
  · rw [hof]; rfl
  · rw [hcolon]; rfl

/-- C8 witness: the amended conversion laws at a concrete name without a
leading colon. -/
theorem c8_witness :
    Keyword.ofStr ((":") ++ ("a")) = Keyword.ofStr ("a") ∧
    Keyword.ofStr ("a") = ⟨("a")⟩ ∧
    (Keyword.ofStr ("a")).display = (":") ++ ("a") ∧
    (Keyword.ofStr ((":") ++ ("a"))).display = (":") ++ ("a") :=
  c8_amended ("a") (by decide)

/-- C9: identifiers are equal exactly when their texts are equal and are
ordered exactly as their texts; the order is total. -/
theorem c9_eq_ord_by_text :
    (∀ a b : Keyword, a = b ↔ a.text = b.text) ∧
    (∀ a b : Keyword, Keyword.lt a b ↔ a.text < b.text) ∧
    (∀ a b : Keyword, Keyword.le a b ↔ a.text ≤ b.text) ∧
    (∀ a b : Keyword, Keyword.lt a b ∨ a = b ∨ Keyword.lt b a) := by
  refine ⟨?_, fun a b => Iff.rfl, fun a b => Iff.rfl, ?_⟩
  · intro a b
    cases a
    cases b
    simp [Keyword.mk.injEq]
  · intro a b
    rcases lt_trichotomy a.text b.text with h | h | h
    · exact Or.inl h
    · refine Or.inr (Or.inl ?_)
      cases a
      cases b
      simpa using h
    · exact Or.inr (Or.inr h)

/-- C5 counterexample: the spec kind table-or-table-id-not-found is
realised by two distinct enumeration variants, and the Parse variant of
the enumeration realises no kind of the closed spec taxonomy, so the
correspondence is not one-to-one in either direction. -/
theorem c5_counterexample :
    (realises .tableOrTableIdNotFound .TableNotFound = true ∧
     realises .tableOrTableIdNotFound .TableIdNotFound = true ∧
     ErrorVariant.TableNotFound ≠ ErrorVariant.TableIdNotFound) ∧
    (∀ k : SpecFailureKind, realises k .Parse = false) ∧
    AlgebraParseError.variant (.Parse ("x")) = .Parse := by
  exact ⟨⟨rfl, rfl, by decide⟩, by decide, rfl⟩

/-- C5 amended: every kind of the closed spec taxonomy is realised by at
least one enumeration variant, every kind other than
table-or-table-id-not-found by exactly one while that kind is realised
by both TableNotFound and TableIdNotFound, and the enumeration realises
nothing outside the closed set except its additional Parse variant; the
enumeration has fourteen variants for the twelve named kinds, and every
variant tag is attained by a concrete error value. -/
theorem c5_amended :
    (∀ k : SpecFailureKind, ∃ t, realises k t = true) ∧
    (∀ k : SpecFailureKind, ∀ t u : ErrorVariant,
      k ≠ .tableOrTableIdNotFound → realises k t = true → realises k u = true → t = u) ∧
    (∀ t : ErrorVariant, t ≠ .Parse → ∃ k, realises k t = true) ∧
    (∀ k : SpecFailureKind, realises k .Parse = false) ∧
    Fintype.card ErrorVariant = 14 ∧
    Fintype.card SpecFailureKind = 12 ∧
    (∀ t : ErrorVariant, ∃ e : AlgebraParseError, e.variant = t) := by
  refine ⟨by decide, by decide, by decide, by decide, by decide, by decide, ?_⟩
  intro t
  cases t
  · exact ⟨.Unchainable ("x"), rfl⟩
  · exact ⟨.WrongArgumentType ("x") 0 ("y"), rfl⟩
  · exact ⟨.TableNotFound ("x"), rfl⟩
  · exact ⟨.WrongTableKind ⟨true, 0⟩, rfl⟩
  · exact ⟨.TableIdNotFound ⟨true, 0⟩, rfl⟩
  · exact ⟨.NotEnoughArguments ("x"), rfl⟩
  · exact ⟨.ValueError .null, rfl⟩
  · exact ⟨.Parse ("x"), rfl⟩
  · exact ⟨.KeyConflict [], rfl⟩
  · exact ⟨.ValueNotFound [], rfl⟩
  · exact ⟨.NoAssociation ("a") ("b"), rfl⟩
  · exact ⟨.DuplicateBinding ("x"), rfl⟩
  · exact ⟨.AggregateFnNotAllowed, rfl⟩
  · exact ⟨.ScalarFnNotAllowed, rfl⟩

/-- C5 witness: the uniqueness part of the amended correspondence
applied to the wrong-argument-shape kind. -/
theorem c5_witness :
    ErrorVariant.WrongArgumentType = ErrorVariant.WrongArgumentType :=
  c5_amended.2.1 .wrongArgumentShape .WrongArgumentType .WrongArgumentType
    (by decide) rfl rfl

/-- C6: assert_rule succeeds exactly when the fragment rule equals the
expected rule and otherwise returns WrongArgumentType carrying the given
clause name, the argument position and the shape found; hence a
top-level input whose unwrapped fragment is not a ra_expr node makes the
whole build fail with WrongArgumentType at position 0. -/
theorem c6_assert_rule :
    (∀ pair rule clause u, assert_rule pair rule clause u = .ok () ↔ pair.rule = rule) ∧
    (∀ pair rule clause u, pair.rule ≠ rule →
      assert_rule pair rule clause u =
        .error (.WrongArgumentType clause u pair.rule.debugStr)) ∧
    (∀ fuel ctx pair0 pair,
      (if pair0.rule = .ra_arg then pair0.inner.head? else some pair0) = some pair →
      pair.rule ≠ .ra_expr →
      build_relational_expr (fuel + 1) ctx pair0 =
        .err (.WrongArgumentType pair.str 0 pair.rule.debugStr)) := by
  refine ⟨?_, ?_, ?_⟩
  · intro pair rule clause u
    by_cases h : pair.rule = rule
    · simp [assert_rule, h]
    · simp [assert_rule, h]
  · intro pair rule clause u h
    simp [assert_rule, h]
  · intro fuel ctx pair0 pair h1 h2
    simp only [build_relational_expr, h1]
    simp [assert_rule, h2]

/-- A concrete top-level fragment that is not a query expression. -/
def badTop : Pair := Pair.mk .expr "t" []

/-- C6 witness: building from a non-expression top-level fragment fails
with WrongArgumentType at position 0. -/
theorem c6_witness :
    build_relational_expr 1 ctx0 badTop =
      .err (.WrongArgumentType ("t") 0 ("expr")) :=
  c6_assert_rule.2.2 0 ctx0 badTop badTop rfl (by decide)

/-- C10: the child listing reports no children for the stream origins
TaggedInsertion, FromValues, TableScan and WalkOp, one child for every
single-source transform and for Insertion, both children for Cartesian,
MergeJoin and SymDiffOp, all listed sources for ConcatOp, UnionOp,
DiffOp and IntersectOp, and only the left child for NestedLoopLeft, so
the recursive debug rendering of a NestedLoopLeft node is independent of
its right subtree. -/
theorem c10_sources_shape :
    (∀ s u as, RaBox.sources (.Insertion s u as) = [s]) ∧
    (∀ u as, RaBox.sources (.TaggedInsertion u as) = []) ∧
    (∀ as, RaBox.sources (.FromValues as) = []) ∧
    (∀ as, RaBox.sources (.TableScan as) = []) ∧
    (∀ as, RaBox.sources (.WalkOp as) = []) ∧
    (∀ s as, RaBox.sources (.WhereFilter s as) = [s]) ∧
    (∀ s as, RaBox.sources (.SelectOp s as) = [s]) ∧
    (∀ s as, RaBox.sources (.AssocOp s as) = [s]) ∧
    (∀ s k as, RaBox.sources (.LimitOp s k as) = [s]) ∧
    (∀ s as, RaBox.sources (.SortOp s as) = [s]) ∧
    (∀ s as, RaBox.sources (.GroupOp s as) = [s]) ∧
    (∀ s as, RaBox.sources (.DeleteOp s as) = [s]) ∧
    (∀ s as, RaBox.sources (.UpdateOp s as) = [s]) ∧
    (∀ l r, RaBox.sources (.Cartesian l r) = [l, r]) ∧
    (∀ l r k, RaBox.sources (.MergeJoin l r k) = [l, r]) ∧
    (∀ a b t, RaBox.sources (.SymDiffOp (a :: b :: t)) = [a, b]) ∧
    (∀ ss, RaBox.sources (.ConcatOp ss) = ss) ∧
    (∀ ss, RaBox.sources (.UnionOp ss) = ss) ∧
    (∀ ss, RaBox.sources (.DiffOp ss) = ss) ∧
    (∀ ss, RaBox.sources (.IntersectOp ss) = ss) ∧
    (∀ l r, RaBox.sources (.NestedLoopLeft l r) = [l]) ∧
    (∀ fuel l r rp,
      renderTree (fuel + 1) (.NestedLoopLeft l r) =
        renderTree (fuel + 1) (.NestedLoopLeft l rp)) := by
  refine ⟨?_, ?_, ?_, ?_, ?_, ?_, ?_, ?_, ?_, ?_, ?_, ?_, ?_, ?_, ?_, ?_, ?_, ?_, ?_, ?_, ?_, ?_⟩ <;>
    (intros; rfl)

/-- C2: once the builder fold reaches a clause fragment whose tag string
is not a recognized clause name, the build aborts fatally at that
fragment through the unimplemented arm, regardless of the fragments that
follow, instead of returning an error value of the taxonomy. -/
theorem c2_unrecognized_tag_fatal
    (fuel : Nat) (ctx : TempDbContext) (st : Option RaBox)
    (pre : List Pair) (f tagP : Pair) (args rest : List Pair)
    (mid : Option RaBox)
    (hpre : foldClauses (buildStep (build_relational_expr fuel ctx) ctx) st pre = .ok mid)
    (hin : f.inner = tagP :: args)
    (hn : tagP.str ∉ recognizedNames) :
    foldClauses (buildStep (build_relational_expr fuel ctx) ctx) st (pre ++ f :: rest) =
      .fatal ("not implemented: " ++ tagP.str) := by
  rw [foldClauses_append _ pre (f :: rest) st, hpre]
  show foldClauses _ mid (f :: rest) = _
  simp only [foldClauses]
  rw [buildStep_unrecognized _ _ mid f tagP args hin hn]

/-- C2 witness: a chain whose first fragment carries the unrecognized
tag Bogus aborts fatally at that fragment. -/
theorem c2_witness :
    foldClauses (buildStep (build_relational_expr 1 ctx0) ctx0) none
        ([] ++ bogusFrag :: []) =
      .fatal ("not implemented: " ++ (tagOf ("Bogus")).str) :=
  c2_unrecognized_tag_fatal 1 ctx0 none [] bogusFrag (tagOf ("Bogus")) [] [] none
    rfl rfl (by decide)

/-- C3: when a non-empty clause chain builds successfully, the result is
exactly the node constructed for the last fragment, namely the fold
state after the leading fragments stepped once by the final fragment;
and building an empty clause chain aborts fatally at the unwrap of the
absent node instead of returning an error value. -/
theorem c3_last_fragment_and_empty_chain :
    (∀ fuel ctx p pre f r, p.rule = .ra_expr → p.inner = pre ++ [f] →
      build_relational_expr (fuel + 1) ctx p = .ok r →
      ∃ mid,
        foldClauses (buildStep (build_relational_expr fuel ctx) ctx) none pre = .ok mid ∧
        buildStep (build_relational_expr fuel ctx) ctx mid f = .ok r) ∧
    (∀ fuel ctx p, p.rule = .ra_expr → p.inner = [] →
      build_relational_expr (fuel + 1) ctx p = .fatal ("unwrap")) := by
  constructor
  · intro fuel ctx p pre f r hrule hinner hok
    have hne : ¬ p.rule = .ra_arg := by rw [hrule]; decide
    simp only [build_relational_expr, if_neg hne] at hok
    simp only [assert_rule, if_pos hrule] at hok
    rw [hinner, foldClauses_append _ pre [f] none] at hok
    cases h1 : foldClauses (buildStep (build_relational_expr fuel ctx) ctx) none pre with
    | ok mid =>
      rw [h1] at hok
      simp only [foldClauses] at hok
      cases h2 : buildStep (build_relational_expr fuel ctx) ctx mid f with
      | ok r2 =>
        rw [h2] at hok
        simp only [foldClauses, unwrapBuilt, Outcome.ok.injEq] at hok
        exact ⟨mid, rfl, by rw [h2, hok]⟩
      | err e =>
        rw [h2] at hok
        simp only [unwrapBuilt] at hok
        exact Outcome.noConfusion hok
      | fatal m =>
        rw [h2] at hok
        simp only [unwrapBuilt] at hok
        exact Outcome.noConfusion hok
    | err e =>
      rw [h1] at hok
      simp only [unwrapBuilt] at hok
      exact Outcome.noConfusion hok
    | fatal m =>
      rw [h1] at hok
      simp only [unwrapBuilt] at hok
      exact Outcome.noConfusion hok
  · intro fuel ctx p hrule hinner
    have hne : ¬ p.rule = .ra_arg := by rw [hrule]; decide
    simp only [build_relational_expr, if_neg hne]
    simp only [assert_rule, if_pos hrule]
    rw [hinner]
    rfl

/-- C3 witness: the singleton Values chain yields the node of its last
fragment, and the empty chain aborts fatally. -/
theorem c3_witness :
    (∃ mid,
      foldClauses (buildStep (build_relational_expr 0 ctx0) ctx0) none [] = .ok mid ∧
      buildStep (build_relational_expr 0 ctx0) ctx0 mid valuesFrag = .ok fvNode) ∧
    build_relational_expr 1 ctx0 emptyChainPair = .fatal ("unwrap") :=
  ⟨c3_last_fragment_and_empty_chain.1 0 ctx0 valuesChainPair [] valuesFrag fvNode rfl rfl rfl,
   c3_last_fragment_and_empty_chain.2 0 ctx0 emptyChainPair rfl rfl⟩

/-- C4: the builder is a left-to-right fold over the clause fragments:
the step function agrees everywhere with the table-driven dispatch that
selects a constructor from the tag string alone and applies it to the
node built so far and the remaining arguments; the fold threads the node
built by one step into the next; the whole build starts from no previous
node; and the shared constructors are distinguished only by their
parameter, the upsert flag for Insert and Upsert and for InsertTagged
and UpsertTagged, and the kind for Take and Skip and for the four join
tags. -/
theorem c4_fold_dispatch :
    (∀ recur ctx built f, buildStep recur ctx built f =
      (match f.inner with
       | [] => Outcome.fatal ("unwrap")
       | tagP :: args =>
         match ctorId tagP.str with
         | none => Outcome.fatal ("not implemented: " ++ tagP.str)
         | some c => applyCtor recur ctx c built args)) ∧
    (∀ step built f rest, foldClauses step built (f :: rest) =
      (match step built f with
       | .ok r => foldClauses step (some r) rest
       | .err e => Outcome.err e
       | .fatal m => Outcome.fatal m)) ∧
    (∀ fuel ctx p, p.rule = .ra_expr →
      build_relational_expr (fuel + 1) ctx p =
        unwrapBuilt
          (foldClauses (buildStep (build_relational_expr fuel ctx) ctx) none p.inner)) ∧
    (ctorId ("Insert") = some (.insertion false) ∧
     ctorId ("Upsert") = some (.insertion true) ∧
     ctorId ("InsertTagged") = some (.taggedInsertion false) ∧
     ctorId ("UpsertTagged") = some (.taggedInsertion true) ∧
     ctorId ("Take") = some (.limitOp ("Take")) ∧
     ctorId ("Skip") = some (.limitOp ("Skip")) ∧
     ctorId ("InnerJoin") = some (.mergeJoin ("InnerJoin")) ∧
     ctorId ("LeftJoin") = some (.mergeJoin ("LeftJoin")) ∧
     ctorId ("RightJoin") = some (.mergeJoin ("RightJoin")) ∧
     ctorId ("OuterJoin") = some (.mergeJoin ("OuterJoin"))) := by
  refine ⟨?_, ?_, ?_, ?_⟩
  · intro recur ctx built f
    rcases f with ⟨fr, fs, fi⟩
    cases fi with
    | nil => rfl
    | cons t as =>
      simp only [buildStep, Pair.inner]
      generalize t.str = s
      split
      case _ => rfl
      case _ => rfl
      case _ => rfl
      case _ => rfl
      case _ => rfl
      case _ => rfl
      case _ => rfl
      case _ => rfl
      case _ => rfl
      case _ => rfl
      case _ => rfl
      case _ => rfl
      case _ => rfl
      case _ => rfl
      case _ => rfl
      case _ => rfl
      case _ => rfl
      case _ => rfl
      case _ => rfl
      case _ => rfl
      case _ => rfl
      case _ => rfl
      case _ => rfl
      case _ => rfl
      case _ =>
        rename_i hne
        have hnone : ctorId s = none := by
          unfold ctorId
          split
          all_goals simp_all
        rw [hnone]
  · intro step built f rest
    rfl
  · intro fuel ctx p hrule
    have hne : ¬ p.rule = .ra_arg := by rw [hrule]; decide
    simp only [build_relational_expr, if_neg hne]
    simp only [assert_rule, if_pos hrule]
  · exact ⟨rfl, rfl, rfl, rfl, rfl, rfl, rfl, rfl, rfl, rfl⟩

/-- C4 witness: the fold-from-none shape of the whole build applied to a
concrete chain. -/
theorem c4_witness :
    build_relational_expr 1 ctx0 chainPair =
      unwrapBuilt
        (foldClauses (buildStep (build_relational_expr 0 ctx0) ctx0) none
          chainPair.inner) :=
  c4_fold_dispatch.2.2.1 0 ctx0 chainPair rfl

end Cozo
